import Mathlib

/-!
Verification development for the burnout-analytics core of the
aws-summit-hackathon repository.

The engine is embedded shallowly:

* Instants are rational numbers of minutes since an epoch midnight
  (Python datetimes are minute/microsecond-precision wall-clock values;
  `parse_datetime` strips timezones and is the identity on this model).
* Python floats are modelled as exact rationals; the single transcendental
  operation (`math.log1p`) is modelled by `Real.log`, so the score
  aggregator lives in `ℝ` while every other component is computable over `ℚ`.
* `round(x, 2)` is modelled by `round2` (round to nearest hundredth); none
  of the statements below sits on an exact rounding tie, where Python's
  bankers rounding could differ from `round`.
* The ambient effects of the code (`datetime.now()` and `uuid.uuid4()`)
  are passed explicitly: every function takes the reference instant `now`,
  and the intervention generator takes the stream `ids` of identifiers
  drawn by its successive `uuid.uuid4()` calls.

Embedded sources:
* `src/backend/stress_calculator.py` (the canonical scoring algorithm),
* `src/backend/utils/stress_calculator.py` (the legacy helpers that build
  the `StressFactors` record consumed by the intervention engine, as wired
  in `src/backend/routers/stress.py`),
* `src/backend/utils/event_ai_classification.py`,
* `src/backend/utils/intervention_engine.py`.
-/

namespace BurnoutCore

/-! ## Time model: minutes since an epoch midnight -/

/-- `datetime.replace(hour=0, minute=0, second=0, microsecond=0)`:
truncate an instant to the midnight that starts its day. -/
def truncDay (t : ℚ) : ℚ := 1440 * ⌊t / 1440⌋

/-- `t.replace(hour=..., minute=..., ...)` with the target time of day
given in minutes: keep the day of `t`, set the time of day to `m`. -/
def replaceTime (t m : ℚ) : ℚ := truncDay t + m

/-- `get_week_range`: the analysis window starts at the midnight of `now`. -/
def weekStartOf (now : ℚ) : ℚ := truncDay now

/-! ## Data model (`models/schemas.py`) -/

structure CalendarEvent where
  id : String
  summary : String
  start : ℚ
  endT : ℚ
  description : Option String
deriving DecidableEq

structure Task where
  id : String
  title : String
  description : Option String
  due_date : Option ℚ
  priority : String
  completed : Bool
deriving DecidableEq

/-! ## Event stress classification (`utils/event_ai_classification.py`)

Strings are compared after lowercasing; we work on lists of (lowercased)
character codes, where Python keyword containment is list infix. -/

/-- ASCII lowercasing of one character code (`str.lower`). -/
def lowerCode (n : ℕ) : ℕ := if 65 ≤ n ∧ n ≤ 90 then n + 32 else n

/-- The lowercased character codes of a string. -/
def textCodes (s : String) : List ℕ := s.toList.map (fun c => lowerCode c.toNat)

def highStressKeywords : List (List ℕ) :=
  (["exam", "test", "quiz", "midterm", "final", "interview", "presentation",
    "deadline", "meeting", "review", "assessment", "evaluation", "project due",
    "submission", "defense", "thesis", "dissertation", "lab", "homework"]).map textCodes

def recreationalKeywords : List (List ℕ) :=
  (["gym", "workout", "exercise", "yoga", "meditation", "break", "lunch",
    "dinner", "coffee", "social", "party", "game", "movie", "concert",
    "sports", "club", "relax", "hobby", "fun", "hang out", "chill"]).map textCodes

/-- `f"{event.summary} {event.description or ''}".lower()` as character codes. -/
def eventText (e : CalendarEvent) : List ℕ :=
  textCodes (e.summary ++ " " ++ (e.description.getD ""))

/-- `any(keyword in text for keyword in kws)`. -/
def matchesAny (kws : List (List ℕ)) (text : List ℕ) : Bool :=
  kws.any (fun k => decide (k <:+: text))

/-- The label the classifier assigns to a single event: high-stress keywords
take precedence, then recreational, else neutral. -/
def classifyOne (e : CalendarEvent) : String :=
  if matchesAny highStressKeywords (eventText e) then "high_stress"
  else if matchesAny recreationalKeywords (eventText e) then "recreational"
  else "neutral"

/-- Python `dict` assignment `d[k] = v`: overwrite in place if the key is
present, else append. -/
def dictInsert (l : List (String × String)) (k v : String) : List (String × String) :=
  if l.any (fun p => p.1 == k) then l.map (fun p => if p.1 == k then (k, v) else p)
  else l ++ [(k, v)]

/-- `classify_event_stress`: the dictionary mapping event ids to labels. -/
def classifyEventStress (events : List CalendarEvent) : List (String × String) :=
  events.foldl (fun acc e => dictInsert acc e.id (classifyOne e)) []

/-! ## Rounding -/

/-- `round(x, 2)`: round to the nearest hundredth. -/
def round2 {α : Type} [LinearOrderedField α] [FloorRing α] (x : α) : α :=
  (round (x * 100) : ℤ) / 100

/-! ## Calendar analyzers (`src/backend/stress_calculator.py`) -/

/-- Events whose start lies in the 7-day window anchored at `now`. -/
def weeklyEvents (events : List CalendarEvent) (now : ℚ) : List CalendarEvent :=
  events.filter (fun e => decide (weekStartOf now ≤ e.start ∧ e.start < weekStartOf now + 10080))

/-- `StressCalculator.calculate_calendar_density`. -/
def calculateCalendarDensity (events : List CalendarEvent) (now : ℚ) : ℚ :=
  let weekly := weeklyEvents events now
  if weekly.isEmpty then 0
  else
    let totalMinutes := (weekly.map (fun e => e.endT - e.start)).sum
    round2 (min (totalMinutes / (16 * 60 * 7) * 100) 100)

/-- Stable insertion (ascending by start) modelling `sorted(key=start)`. -/
def insertByStart (x : CalendarEvent) : List CalendarEvent → List CalendarEvent
  | [] => [x]
  | y :: ys => if x.start ≤ y.start then x :: y :: ys else y :: insertByStart x ys

def sortByStart (l : List CalendarEvent) : List CalendarEvent := l.foldr insertByStart []

/-- Gaps `start(i) − end(i−1)` between consecutive events of a sorted list. -/
def gapsOf : List CalendarEvent → List ℚ
  | [] => []
  | [_] => []
  | a :: b :: rest => (b.start - a.endT) :: gapsOf (b :: rest)

/-- `StressCalculator.calculate_average_break_length`. -/
def calculateAverageBreakLength (events : List CalendarEvent) (now : ℚ) : ℚ :=
  let weekly := weeklyEvents events now
  if weekly.length < 2 then 16 * 60
  else
    let breaks := (gapsOf (sortByStart weekly)).filter (fun g => decide (0 < g))
    if breaks.isEmpty then 0
    else round2 (breaks.sum / (breaks.length : ℚ))

/-! ## Sleep opportunity (`calculate_sleep_opportunity`) -/

/-- Events overlapping the window `[s, e]`, clipped to its bounds. -/
def clipToWindow (events : List CalendarEvent) (s e : ℚ) : List (ℚ × ℚ) :=
  events.filterMap (fun ev =>
    if ev.endT > s ∧ ev.start < e then some (max ev.start s, min ev.endT e) else none)

/-- Lexicographic comparison of clipped intervals (Python tuple `sort`). -/
def pairLe (a b : ℚ × ℚ) : Prop := a.1 < b.1 ∨ (a.1 = b.1 ∧ a.2 ≤ b.2)

instance : DecidablePred (fun p : (ℚ × ℚ) × (ℚ × ℚ) => pairLe p.1 p.2) := by
  intro p; unfold pairLe; infer_instance

instance (a b : ℚ × ℚ) : Decidable (pairLe a b) := by
  unfold pairLe; infer_instance

def insertPair (x : ℚ × ℚ) : List (ℚ × ℚ) → List (ℚ × ℚ)
  | [] => [x]
  | y :: ys => if pairLe x y then x :: y :: ys else y :: insertPair x ys

def sortPairs (l : List (ℚ × ℚ)) : List (ℚ × ℚ) := l.foldr insertPair []

/-- The running-maximum loop over gaps between consecutive boundaries,
in hours (`(curr_start - prev_end).total_seconds() / 3600`). -/
def maxGapFrom : (ℚ × ℚ) → List (ℚ × ℚ) → ℚ → ℚ
  | _, [], acc => acc
  | prev, c :: rest, acc =>
      maxGapFrom c rest (if acc < (c.1 - prev.2) / 60 then (c.1 - prev.2) / 60 else acc)

def maxGap : List (ℚ × ℚ) → ℚ
  | [] => 0
  | p :: rest => maxGapFrom p rest 0

/-- One night's sleep estimate: largest free gap of the clipped-and-sorted
boundary list (the window bounds enter as zero-length markers), capped at 12. -/
def nightSleepHours (events : List CalendarEvent) (s e : ℚ) : ℚ :=
  min (maxGap (sortPairs (clipToWindow events s e ++ [(s, s), (e, e)]))) 12

/-- 10 pm of day `d` of the analysis week. -/
def nightWindowStart (now : ℚ) (d : ℕ) : ℚ :=
  replaceTime (weekStartOf now + d * 1440) (22 * 60)

/-- 8 am of day `d + 1` of the analysis week. -/
def nightWindowEnd (now : ℚ) (d : ℕ) : ℚ :=
  replaceTime (weekStartOf now + d * 1440 + 1440) (8 * 60)

/-- `StressCalculator.calculate_sleep_opportunity`: per-night estimates for
the 7 nights of the window, averaged and rounded. -/
def calculateSleepOpportunity (events : List CalendarEvent) (now : ℚ) : ℚ :=
  let vals := (List.range 7).map
    (fun d => nightSleepHours events (nightWindowStart now d) (nightWindowEnd now d))
  round2 (vals.sum / (vals.length : ℚ))

/-! ## Task pressure -/

/-- `(now + timedelta(days=1)).replace(hour=23, minute=59, second=59,
microsecond=999999)`. -/
def endOfTomorrow (now : ℚ) : ℚ :=
  replaceTime (now + 1440) (23 * 60 + 59 + 59 / 60 + 999999 / 60000000)

/-- `StressCalculator.calculate_immediate_tasks`: incomplete tasks with a
due instant at most the end of tomorrow. -/
def calculateImmediateTasks (tasks : List Task) (now : ℚ) : ℕ :=
  (tasks.filter (fun t =>
    !t.completed &&
      (match t.due_date with
       | none => false
       | some d => decide (d ≤ endOfTomorrow now)))).length

/-! ## Stress score aggregation (`calculate_stress_score`) -/

/-- The stress score record; `α` is `ℝ` for the computed score (the task
factor involves `math.log1p`) and `ℚ` when the record is a plain input of
the intervention engine. -/
structure StressScore (α : Type) where
  total_score : α
  calendar_factor : α
  task_factor : α
  sleep_factor : α
  risk_level : String
  timestamp : ℚ
deriving DecidableEq

def eventsCount (events : List CalendarEvent) (now : ℚ) : ℕ :=
  (weeklyEvents events now).length

def highStressCount (events : List CalendarEvent) (now : ℚ) : ℕ :=
  (classifyEventStress (weeklyEvents events now)).countP (fun p => p.2 == "high_stress")

def recreationalCount (events : List CalendarEvent) (now : ℚ) : ℕ :=
  (classifyEventStress (weeklyEvents events now)).countP (fun p => p.2 == "recreational")

/-- `max(0, min(density*0.4 + events*1.2 + high_stress*4 - recreational*2, 100))`. -/
def calFactorQ (density : ℚ) (cnt hs rc : ℕ) : ℚ :=
  max 0 (min (density * 0.4 + cnt * 1.2 + hs * 4 - rc * 2) 100)

def calendarFactorVal (events : List CalendarEvent) (now : ℚ) : ℚ :=
  calFactorQ (calculateCalendarDensity events now) (eventsCount events now)
    (highStressCount events now) (recreationalCount events now)

/-- `min(30 * math.log1p(immediate_tasks * 2), 100)`. -/
noncomputable def taskFactor (n : ℕ) : ℝ :=
  min (30 * Real.log (1 + (n : ℝ) * 2)) 100

/-- `max(100 - sleep_hours * 12.5, 0)`. -/
def sleepFactorQ (sleepHours : ℚ) : ℚ := max (100 - sleepHours * 12.5) 0

/-- The step function of the average break length. -/
def breakFactorQ (avgBreak : ℚ) : ℚ :=
  if 60 ≤ avgBreak then 0
  else if 30 ≤ avgBreak then 30
  else if 15 ≤ avgBreak then 60
  else 90

/-- The weighted total score, before rounding. -/
noncomputable def totalScoreVal (events : List CalendarEvent) (tasks : List Task) (now : ℚ) : ℝ :=
  (calendarFactorVal events now : ℝ) * 0.30 +
    taskFactor (calculateImmediateTasks tasks now) * 0.20 +
    (sleepFactorQ (calculateSleepOpportunity events now) : ℝ) * 0.30 +
    (breakFactorQ (calculateAverageBreakLength events now) : ℝ) * 0.20

/-- The risk tier the code assigns to a computed total score. -/
noncomputable def riskLevel (s : ℝ) : String :=
  if 80 ≤ s then "critical"
  else if 60 ≤ s then "high"
  else if 40 ≤ s then "medium"
  else "low"

/-- `StressCalculator.calculate_stress_score` of
`src/backend/stress_calculator.py`: the canonical aggregator. The risk
level is derived from the unrounded total; the returned numeric fields are
rounded to 2 decimals. -/
noncomputable def calculateStressScore (events : List CalendarEvent) (tasks : List Task)
    (now : ℚ) : StressScore ℝ :=
  { total_score := round2 (totalScoreVal events tasks now)
    calendar_factor := ((round2 (calendarFactorVal events now) : ℚ) : ℝ)
    task_factor := round2 (taskFactor (calculateImmediateTasks tasks now))
    sleep_factor := ((round2 (sleepFactorQ (calculateSleepOpportunity events now)) : ℚ) : ℝ)
    risk_level := riskLevel (totalScoreVal events tasks now)
    timestamp := now }

/-! ## Stress factors (`src/backend/utils/stress_calculator.py`)

The factors record consumed by the intervention engine is built by the
legacy calculator, as wired in `src/backend/routers/stress.py`. -/

structure StressFactors where
  events_next_7_days : ℕ
  overdue_tasks : ℕ
  high_priority_tasks : ℕ
  calendar_density : ℚ
  sleep_hours_available : ℚ
deriving DecidableEq

/-- `calculate_task_pressure`: overdue and high-priority incomplete counts. -/
def calculateTaskPressure (tasks : List Task) (now : ℚ) : ℕ × ℕ :=
  ((tasks.filter (fun t =>
      (match t.due_date with
       | none => false
       | some d => decide (d < now)) && !t.completed)).length,
   (tasks.filter (fun t => t.priority == "high" && !t.completed)).length)

/-- The legacy per-day `calculate_calendar_density` of
`utils/stress_calculator.py` (day of `now`, 16 waking hours). -/
def calendarDensityDay (events : List CalendarEvent) (now : ℚ) : ℚ :=
  let daily := events.filter (fun e => decide (truncDay now ≤ e.start ∧ e.start < truncDay now + 1440))
  if daily.isEmpty then 0
  else
    let totalMinutes := (daily.map (fun e => e.endT - e.start)).sum
    round2 (min (totalMinutes / (16 * 60) * 100) 100)

/-- `max` of a nonempty Python list (0 as an unused default). -/
def maxQ : List ℚ → ℚ
  | [] => 0
  | x :: xs => xs.foldl max x

/-- `min` of a nonempty Python list (0 as an unused default). -/
def minQ : List ℚ → ℚ
  | [] => 0
  | x :: xs => xs.foldl min x

/-- The legacy `calculate_sleep_opportunity` of `utils/stress_calculator.py`:
a single night window between the last past event and the next future one. -/
def sleepOpportunityLegacy (events : List CalendarEvent) (now : ℚ) : ℚ :=
  if events.isEmpty then 8
  else
    let today := truncDay now
    let tomorrow := today + 1440
    let recent := events.filter (fun e => decide (today - 1440 ≤ e.start ∧ e.start < tomorrow + 1440))
    if recent.isEmpty then 8
    else
      let past := recent.filter (fun e => decide (e.endT ≤ now))
      let lastEventEnd := if past.isEmpty then replaceTime today (22 * 60)
        else maxQ (past.map (fun e => e.endT))
      let future := recent.filter (fun e => decide (now < e.start))
      let nextEventStart := if future.isEmpty then replaceTime tomorrow (8 * 60)
        else minQ (future.map (fun e => e.start))
      let sleepStart := if lastEventEnd < replaceTime today (22 * 60)
        then replaceTime today (22 * 60) else lastEventEnd
      let wakeTime := if replaceTime tomorrow (8 * 60) < nextEventStart
        then replaceTime tomorrow (8 * 60) else nextEventStart
      if sleepStart < wakeTime then round2 (min ((wakeTime - sleepStart) / 60) 12)
      else 0

/-- Events with `now <= start <= now + 7 days` (note: closed upper bound,
unlike the aggregator's half-open window). -/
def upcomingWithin7 (events : List CalendarEvent) (now : ℚ) : List CalendarEvent :=
  events.filter (fun e => decide (now ≤ e.start ∧ e.start ≤ now + 10080))

/-- `StressCalculator.get_stress_factors` of `utils/stress_calculator.py`. -/
def getStressFactors (events : List CalendarEvent) (tasks : List Task) (now : ℚ) : StressFactors :=
  { events_next_7_days := (upcomingWithin7 events now).length
    overdue_tasks := (calculateTaskPressure tasks now).1
    high_priority_tasks := (calculateTaskPressure tasks now).2
    calendar_density := calendarDensityDay events now
    sleep_hours_available := sleepOpportunityLegacy events now }

/-! ## Intervention engine (`utils/intervention_engine.py`)

`uuid.uuid4()` draws are modelled by the stream `ids`: the k-th constructed
intervention receives identifier `ids k`. Weekday/time rendering of
`strftime` is modelled with epoch day 0 rendered as Monday. -/

structure Intervention where
  id : String
  type : String
  priority : String
  title : String
  description : String
  impact_score : ℚ
  effort_score : ℚ
deriving DecidableEq

def dayNames : List String :=
  ["Monday", "Tuesday", "Wednesday", "Thursday", "Friday", "Saturday", "Sunday"]

/-- `strftime('%A')` on the minute model. -/
def dayName (t : ℚ) : String := dayNames.getD (⌊t / 1440⌋ % 7).toNat "Monday"

def pad2 (n : ℤ) : String := if n < 10 then "0" ++ toString n else toString n

/-- `strftime('%I:%M%p')` on the minute model. -/
def timeOfDayStr (t : ℚ) : String :=
  let m := ⌊t - truncDay t⌋
  let h := m / 60
  let h12 := if h % 12 = 0 then 12 else h % 12
  pad2 h12 ++ ":" ++ pad2 (m % 60) ++ (if h < 12 then "AM" else "PM")

def optionalKeywords : List (List ℕ) :=
  (["coffee", "chat", "catch up", "social", "optional", "lunch", "networking"]).map textCodes

/-- The overdue-task list the engine recomputes from the raw tasks. -/
def overdueList (tasks : List Task) (now : ℚ) : List Task :=
  tasks.filter (fun t =>
    (match t.due_date with
     | none => false
     | some d => decide (d < now)) && !t.completed)

/-- The incomplete high-priority tasks the engine recomputes. -/
def highPriorityList (tasks : List Task) : List Task :=
  tasks.filter (fun t => t.priority == "high" && !t.completed)

/-- Upcoming events carrying an optional/social keyword in their summary. -/
def reschedulableList (events : List CalendarEvent) (now : ℚ) : List CalendarEvent :=
  (upcomingWithin7 events now).filter
    (fun e => optionalKeywords.any (fun k => decide (k <:+: textCodes e.summary)))

/-- The "delegate" candidate naming the first overdue task. -/
def delegateCandidate (t : Task) (factors : StressFactors) : String → Intervention :=
  fun i =>
    { id := i, type := "delegate", priority := "critical",
      title := "Complete overdue: " ++ t.title.take 30,
      description := t.title ++ " is overdue. Tackle this first thing today or delegate if possible. You have " ++ toString factors.overdue_tasks ++ " total overdue task(s) creating mental burden.",
      impact_score := 40, effort_score := 30 }

/-- The "break_down" candidate naming the first high-priority task. -/
def breakDownCandidate (t : Task) (factors : StressFactors) : String → Intervention :=
  fun i =>
    { id := i, type := "break_down", priority := "high",
      title := "Break down: " ++ t.title.take 30,
      description := t.title ++ " is complex. Split it into 3-4 smaller subtasks with mini-deadlines. You have " ++ toString factors.high_priority_tasks ++ " high-priority items competing for attention.",
      impact_score := 35, effort_score := 20 }

def reduceDensityCandidate (factors : StressFactors) : String → Intervention :=
  fun i =>
    { id := i, type := "reschedule", priority := "high",
      title := "Reduce Calendar Density",
      description := "Your calendar is " ++ toString factors.calendar_density ++ "% full. Consider rescheduling non-urgent meetings.",
      impact_score := 35, effort_score := 25 }

def focusBlocksCandidate : String → Intervention :=
  fun i =>
    { id := i, type := "micro_break", priority := "medium",
      title := "Schedule Focus Blocks",
      description := "Block 2-hour windows in your calendar for deep work on high-priority tasks.",
      impact_score := 20, effort_score := 10 }

def protectSleepCandidate (factors : StressFactors) : String → Intervention :=
  fun i =>
    { id := i, type := "reschedule", priority := "critical",
      title := "Protect Sleep Time",
      description := "You only have " ++ toString factors.sleep_hours_available ++ " hours for sleep. Move late evening commitments to daytime.",
      impact_score := 40, effort_score := 20 }

def recoveryCandidate : String → Intervention :=
  fun i =>
    { id := i, type := "micro_break", priority := "high",
      title := "Schedule Recovery Time",
      description := "Block a 3-hour window this weekend for rest and recovery.",
      impact_score := 30, effort_score := 15 }

/-- The "reschedule"-an-optional-event candidate, naming the event, its
day and its time. -/
def rescheduleEventCandidate (e : CalendarEvent) (upcomingCount : ℕ) : String → Intervention :=
  fun i =>
    { id := i, type := "reschedule", priority := "medium",
      title := "Reschedule " ++ e.summary.take 25,
      description := "Move " ++ e.summary ++ " from " ++ dayName e.start ++ " at " ++ timeOfDayStr e.start ++ " to next week. This gives you breathing room during a packed week with " ++ toString upcomingCount ++ " events.",
      impact_score := 25, effort_score := 15 }

def deepWorkCandidate (factors : StressFactors) : String → Intervention :=
  fun i =>
    { id := i, type := "micro_break", priority := "high",
      title := "Block 2-hour deep work sessions",
      description := "With " ++ toString factors.events_next_7_days ++ " events this week, your schedule is fragmented. Block two 2-hour Do Not Disturb sessions for focused work on high-priority tasks.",
      impact_score := 30, effort_score := 20 }

/-- The candidate interventions, in generation order, each waiting for the
identifier its `uuid.uuid4()` call returns. -/
def interventionCandidates {α : Type} [LinearOrderedField α]
    (stress_score : StressScore α) (factors : StressFactors)
    (tasks : List Task) (events : List CalendarEvent)
    (now : ℚ) : List (String → Intervention) :=
  (if 60 < stress_score.task_factor ∧ 0 < factors.overdue_tasks then
     match (overdueList tasks now).head? with
     | some t => [delegateCandidate t factors]
     | none => []
   else []) ++
  (if 60 < stress_score.task_factor ∧ 3 < factors.high_priority_tasks then
     match (highPriorityList tasks).head? with
     | some t => [breakDownCandidate t factors]
     | none => []
   else []) ++
  (if 60 < stress_score.calendar_factor ∧ 70 < factors.calendar_density then
     [reduceDensityCandidate factors]
   else []) ++
  (if 60 < stress_score.calendar_factor then [focusBlocksCandidate] else []) ++
  (if 60 < stress_score.sleep_factor then [protectSleepCandidate factors] else []) ++
  (if 70 < stress_score.total_score then [recoveryCandidate] else []) ++
  (if 10 < (upcomingWithin7 events now).length ∧ 60 < stress_score.total_score then
     match (reschedulableList events now).head? with
     | some e => [rescheduleEventCandidate e (upcomingWithin7 events now).length]
     | none => []
   else []) ++
  (if 8 < factors.events_next_7_days ∧ 50 < stress_score.total_score then
     [deepWorkCandidate factors]
   else [])

/-- Hand each candidate the identifier of its `uuid.uuid4()` call, in
generation order. -/
def attachIds (ids : ℕ → String) (l : List (String → Intervention)) : List Intervention :=
  List.zipWith (fun k f => f (ids k)) (List.range l.length) l

/-- The ranking key `impact_score / effort_score`. -/
def ratio (i : Intervention) : ℚ := i.impact_score / i.effort_score

/-- Stable descending insertion by `ratio`, modelling
`list.sort(key=..., reverse=True)`. -/
def insertIntv (x : Intervention) : List Intervention → List Intervention
  | [] => [x]
  | y :: ys => if ratio y ≤ ratio x then x :: y :: ys else y :: insertIntv x ys

def sortIntv (l : List Intervention) : List Intervention := l.foldr insertIntv []

/-- `InterventionEngine.generate_interventions`: generate the triggered
candidates, sort by impact/effort descending, return the top 5. -/
def generateInterventions {α : Type} [LinearOrderedField α]
    (stress_score : StressScore α) (factors : StressFactors)
    (tasks : List Task) (events : List CalendarEvent)
    (now : ℚ) (ids : ℕ → String) : List Intervention :=
  (sortIntv (attachIds ids
    (interventionCandidates stress_score factors tasks events now))).take 5

/-! ## The composed pipeline (as wired in `routers/stress.py`) -/

/-- One request: canonical stress score, stress factors, interventions.
`now` is the reference instant and `ids` the stream of UUIDs drawn. -/
noncomputable def pipeline (events : List CalendarEvent) (tasks : List Task)
    (now : ℚ) (ids : ℕ → String) :
    StressScore ℝ × StressFactors × List Intervention :=
  let score := calculateStressScore events tasks now
  let factors := getStressFactors events tasks now
  (score, factors, generateInterventions score factors tasks events now ids)

/-! ## Basic lemmas about rounding -/

theorem round2_mono {α : Type} [LinearOrderedField α] [FloorRing α] {x y : α}
    (h : x ≤ y) : round2 x ≤ round2 y := by
  unfold round2
  have hr : round (x * 100) ≤ round (y * 100) := by
    rw [round_eq, round_eq]
    exact Int.floor_le_floor (by linarith)
  have hc : ((round (x * 100) : ℤ) : α) ≤ ((round (y * 100) : ℤ) : α) := by
    exact_mod_cast hr
  exact (div_le_div_iff_of_pos_right (by norm_num)).2 hc

theorem round2_intCast {α : Type} [LinearOrderedField α] [FloorRing α] (n : ℤ) :
    round2 ((n : α)) = (n : α) := by
  unfold round2
  have h : ((n : α) * 100) = ((n * 100 : ℤ) : α) := by push_cast; ring
  rw [h, round_intCast]
  push_cast
  field_simp

theorem round2_ratCast (q : ℚ) : round2 ((q : ℝ)) = ((round2 q : ℚ) : ℝ) := by
  unfold round2
  have h : ((q : ℝ) * 100) = (((q * 100 : ℚ)) : ℝ) := by push_cast; ring
  rw [h, Rat.round_cast]
  push_cast
  ring

/-! ## C9: classifier precedence and the three scenario events -/

/-- **C9.** The classifier labels an event `high_stress` whenever a
high-stress keyword occurs (case-insensitively) in its concatenated summary
and description, even if a recreational keyword also occurs; `recreational`
when only a recreational keyword occurs; `neutral` otherwise. "Midterm
Exam" is `high_stress`, "Yoga Session" is `recreational`, and "Exam Party"
matches both keyword lists yet is `high_stress` by precedence. -/
theorem classifier_precedence_and_scenarios :
    (∀ e : CalendarEvent,
      (matchesAny highStressKeywords (eventText e) = true →
        classifyOne e = "high_stress") ∧
      (matchesAny highStressKeywords (eventText e) = false →
        matchesAny recreationalKeywords (eventText e) = true →
        classifyOne e = "recreational") ∧
      (matchesAny highStressKeywords (eventText e) = false →
        matchesAny recreationalKeywords (eventText e) = false →
        classifyOne e = "neutral")) ∧
    classifyOne ⟨"e1", "Midterm Exam", 0, 0, none⟩ = "high_stress" ∧
    classifyOne ⟨"e2", "Yoga Session", 0, 0, none⟩ = "recreational" ∧
    matchesAny highStressKeywords (eventText ⟨"e3", "Exam Party", 0, 0, none⟩) = true ∧
    matchesAny recreationalKeywords (eventText ⟨"e3", "Exam Party", 0, 0, none⟩) = true ∧
    classifyOne ⟨"e3", "Exam Party", 0, 0, none⟩ = "high_stress" := by
  refine ⟨fun e => ⟨fun h1 => ?_, fun h1 h2 => ?_, fun h1 h2 => ?_⟩, ?_, ?_, ?_, ?_, ?_⟩
  · simp [classifyOne, h1]
  · simp [classifyOne, h1, h2]
  · simp [classifyOne, h1, h2]
  · decide
  · decide
  · decide
  · decide
  · decide

/-- Witness for C9: the precedence implications applied at the three
concrete scenario events. -/
theorem classifier_precedence_and_scenarios_witness :
    classifyOne ⟨"w1", "Final Exam", 0, 0, none⟩ = "high_stress" ∧
    classifyOne ⟨"w2", "Morning Gym", 0, 0, none⟩ = "recreational" ∧
    classifyOne ⟨"w3", "Commute", 0, 0, none⟩ = "neutral" :=
  ⟨(classifier_precedence_and_scenarios.1 ⟨"w1", "Final Exam", 0, 0, none⟩).1 (by decide),
   (classifier_precedence_and_scenarios.1 ⟨"w2", "Morning Gym", 0, 0, none⟩).2.1
     (by decide) (by decide),
   (classifier_precedence_and_scenarios.1 ⟨"w3", "Commute", 0, 0, none⟩).2.2
     (by decide) (by decide)⟩

/-! ## C3: the 240-minute density scenario

The code divides by the whole week of waking minutes (`16*60*7`), so three
same-day events totalling 240 minutes give `round2(240/6720*100) = 3.57`,
not the `25.0` computed from a single day of waking minutes. -/

theorem round2_of_2500_div_7 : round2 ((240 : ℚ) / (16 * 60 * 7) * 100 ⊓ 100) = 3.57 := by
  have hmin : ((240 : ℚ) / (16 * 60 * 7) * 100 ⊓ 100) = 25 / 7 := by
    rw [min_eq_left (by norm_num)]
    norm_num
  rw [hmin, round2]
  norm_num [round_eq, Int.floor_eq_iff]

/-- Helper: all three events of the scenario survive the week filter. -/
theorem weekly_of_three (e1 e2 e3 : CalendarEvent) (now : ℚ)
    (h1 : weekStartOf now ≤ e1.start ∧ e1.start < weekStartOf now + 10080)
    (h2 : weekStartOf now ≤ e2.start ∧ e2.start < weekStartOf now + 10080)
    (h3 : weekStartOf now ≤ e3.start ∧ e3.start < weekStartOf now + 10080) :
    weeklyEvents [e1, e2, e3] now = [e1, e2, e3] := by
  unfold weeklyEvents
  rw [List.filter_cons_of_pos (by simpa using h1),
      List.filter_cons_of_pos (by simpa using h2),
      List.filter_cons_of_pos (by simpa using h3),
      List.filter_nil]

/-- Any three in-window events totalling 240 minutes give density 3.57. -/
theorem density_three_events_240 (e1 e2 e3 : CalendarEvent) (now : ℚ)
    (h1 : weekStartOf now ≤ e1.start ∧ e1.start < weekStartOf now + 10080)
    (h2 : weekStartOf now ≤ e2.start ∧ e2.start < weekStartOf now + 10080)
    (h3 : weekStartOf now ≤ e3.start ∧ e3.start < weekStartOf now + 10080)
    (hsum : (e1.endT - e1.start) + (e2.endT - e2.start) + (e3.endT - e3.start) = 240) :
    calculateCalendarDensity [e1, e2, e3] now = 3.57 := by
  unfold calculateCalendarDensity
  rw [weekly_of_three e1 e2 e3 now h1 h2 h3]
  have hs : (([e1, e2, e3].map (fun e => e.endT - e.start)).sum : ℚ) = 240 := by
    simp only [List.map, List.sum_cons, List.sum_nil]
    linarith
  simp only [List.isEmpty, hs]
  rw [if_neg (by simp), round2_of_2500_div_7]

/-- **C3 (amended).** For any three events starting inside the analysis
window whose durations total exactly 240 minutes (and no other events),
the calendar density is `round2(min(240/(16*60*7)*100, 100)) = 3.57`. -/
theorem calendar_density_240_amended (e1 e2 e3 : CalendarEvent) (now : ℚ)
    (h1 : weekStartOf now ≤ e1.start ∧ e1.start < weekStartOf now + 10080)
    (h2 : weekStartOf now ≤ e2.start ∧ e2.start < weekStartOf now + 10080)
    (h3 : weekStartOf now ≤ e3.start ∧ e3.start < weekStartOf now + 10080)
    (hsum : (e1.endT - e1.start) + (e2.endT - e2.start) + (e3.endT - e3.start) = 240) :
    calculateCalendarDensity [e1, e2, e3] now = 3.57 :=
  density_three_events_240 e1 e2 e3 now h1 h2 h3 hsum

/-- Witness for the amended C3 at a concrete input (three events on day 0,
lasting 60, 120 and 60 minutes). -/
theorem calendar_density_240_amended_witness :
    calculateCalendarDensity
      [⟨"x", "X", 60, 120, none⟩, ⟨"y", "Y", 200, 320, none⟩,
       ⟨"z", "Z", 400, 460, none⟩] 0 = 3.57 :=
  calendar_density_240_amended _ _ _ 0
    (by constructor <;> norm_num [weekStartOf, truncDay])
    (by constructor <;> norm_num [weekStartOf, truncDay])
    (by constructor <;> norm_num [weekStartOf, truncDay])
    (by norm_num)

/-- **C3 counterexample.** Three same-day events inside the window whose
durations total exactly 240 minutes produce a calendar density of 3.57,
not the claimed 25.0: the code divides by the week of waking minutes. -/
theorem calendar_density_240_not_25 :
    calculateCalendarDensity
      [⟨"a", "A", 600, 660, none⟩, ⟨"b", "B", 700, 820, none⟩,
       ⟨"c", "C", 900, 960, none⟩] 0 ≠ 25 := by
  have h : calculateCalendarDensity
      [⟨"a", "A", 600, 660, none⟩, ⟨"b", "B", 700, 820, none⟩,
       ⟨"c", "C", 900, 960, none⟩] 0 = 3.57 :=
    density_three_events_240 _ _ _ 0
      (by constructor <;> norm_num [weekStartOf, truncDay])
      (by constructor <;> norm_num [weekStartOf, truncDay])
      (by constructor <;> norm_num [weekStartOf, truncDay])
      (by norm_num)
  rw [h]
  norm_num

/-! ## C7: the returned intervention list is ranked and at most 5 long -/

/-- The elements of a descending insertion are the inserted element and the
old elements. -/
theorem mem_insertIntv {a x : Intervention} {l : List Intervention} :
    a ∈ insertIntv x l ↔ a = x ∨ a ∈ l := by
  induction l with
  | nil => simp [insertIntv]
  | cons y ys ih =>
      by_cases h : ratio y ≤ ratio x
      · simp [insertIntv, h]
      · simp only [insertIntv, if_neg h, List.mem_cons, ih]
        tauto

/-- Inserting into a list sorted by descending ratio keeps it sorted. -/
theorem sorted_insertIntv (x : Intervention) (l : List Intervention)
    (h : List.Sorted (fun a b => ratio b ≤ ratio a) l) :
    List.Sorted (fun a b => ratio b ≤ ratio a) (insertIntv x l) := by
  induction l with
  | nil => simp [insertIntv]
  | cons y ys ih =>
      rcases List.sorted_cons.mp h with ⟨hy, hys⟩
      by_cases hc : ratio y ≤ ratio x
      · rw [insertIntv, if_pos hc]
        refine List.sorted_cons.mpr ⟨?_, h⟩
        intro b hb
        rw [List.mem_cons] at hb
        rcases hb with hb | hb
        · subst hb
          exact hc
        · exact le_trans (hy b hb) hc
      · rw [insertIntv, if_neg hc]
        refine List.sorted_cons.mpr ⟨?_, ih hys⟩
        intro b hb
        rcases mem_insertIntv.mp hb with hb | hb
        · subst hb
          exact le_of_lt (not_le.mp hc)
        · exact hy b hb

/-- The stable descending sort produces a list sorted by descending ratio. -/
theorem sorted_sortIntv (l : List Intervention) :
    List.Sorted (fun a b => ratio b ≤ ratio a) (sortIntv l) := by
  induction l with
  | nil => simp [sortIntv]
  | cons x xs ih => exact sorted_insertIntv x (xs.foldr insertIntv []) ih

/-- **C7.** For every input, the intervention list returned to the caller
has length at most 5 and is sorted by `impact_score / effort_score`
descending: the engine sorts all triggered candidates by that ratio and
returns the first 5. -/
theorem interventions_ranked_top5 (ss : StressScore ℚ) (factors : StressFactors)
    (tasks : List Task) (events : List CalendarEvent) (now : ℚ) (ids : ℕ → String) :
    (generateInterventions ss factors tasks events now ids).length ≤ 5 ∧
    List.Sorted (fun a b => ratio b ≤ ratio a)
      (generateInterventions ss factors tasks events now ids) ∧
    generateInterventions ss factors tasks events now ids =
      (sortIntv (attachIds ids
        (interventionCandidates ss factors tasks events now))).take 5 := by
  refine ⟨?_, ?_, rfl⟩
  · rw [generateInterventions, List.length_take]
    exact min_le_left 5 _
  · exact List.Pairwise.sublist (List.take_sublist 5 _) (sorted_sortIntv _)

/-! ## Sleep-window lemmas (for C8, C10 and C6) -/

theorem truncDay_add_int (t : ℚ) (k : ℤ) :
    truncDay (truncDay t + k * 1440) = truncDay t + k * 1440 := by
  unfold truncDay
  have h : (1440 * (⌊t / 1440⌋ : ℚ) + (k : ℚ) * 1440) / 1440 = ((⌊t / 1440⌋ + k : ℤ) : ℚ) := by
    push_cast
    field_simp
    ring
  rw [h, Int.floor_intCast]
  push_cast
  ring

theorem nightWindowStart_eq (now : ℚ) (d : ℕ) :
    nightWindowStart now d = truncDay now + d * 1440 + 1320 := by
  unfold nightWindowStart replaceTime weekStartOf
  have h := truncDay_add_int now d
  push_cast at h
  rw [h]
  norm_num

theorem nightWindowEnd_eq (now : ℚ) (d : ℕ) :
    nightWindowEnd now d = truncDay now + d * 1440 + 1920 := by
  unfold nightWindowEnd replaceTime weekStartOf
  have h := truncDay_add_int now (d + 1)
  push_cast at h
  have h2 : truncDay now + (d : ℚ) * 1440 + 1440 = truncDay now + ((d : ℚ) + 1) * 1440 := by ring
  rw [h2, h]
  ring

theorem nightWindow_diff (now : ℚ) (d : ℕ) :
    nightWindowEnd now d - nightWindowStart now d = 600 := by
  rw [nightWindowStart_eq, nightWindowEnd_eq]
  ring

theorem nightWindow_lt (now : ℚ) (d : ℕ) :
    nightWindowStart now d < nightWindowEnd now d := by
  have h := nightWindow_diff now d
  linarith

/-- Members of an insertion are the inserted pair or old members. -/
theorem mem_insertPair {p x : ℚ × ℚ} {l : List (ℚ × ℚ)} :
    p ∈ insertPair x l ↔ p = x ∨ p ∈ l := by
  induction l with
  | nil => simp [insertPair]
  | cons y ys ih =>
      by_cases h : pairLe x y
      · simp [insertPair, h]
      · simp only [insertPair, if_neg h, List.mem_cons, ih]
        tauto

theorem mem_sortPairs {p : ℚ × ℚ} {l : List (ℚ × ℚ)} :
    p ∈ sortPairs l ↔ p ∈ l := by
  induction l with
  | nil => simp [sortPairs]
  | cons y ys ih =>
      show p ∈ insertPair y (sortPairs ys) ↔ _
      rw [mem_insertPair, ih]
      simp

/-- All clipped events lie inside the window. -/
theorem clip_mem_bounds {events : List CalendarEvent} {s e : ℚ} (hse : s ≤ e)
    {p : ℚ × ℚ} (hp : p ∈ clipToWindow events s e) :
    s ≤ p.1 ∧ p.1 ≤ e ∧ s ≤ p.2 ∧ p.2 ≤ e := by
  unfold clipToWindow at hp
  rw [List.mem_filterMap] at hp
  obtain ⟨ev, _, hev⟩ := hp
  by_cases hc : ev.endT > s ∧ ev.start < e
  · rw [if_pos hc] at hev
    obtain ⟨h1, h2⟩ := hc
    cases hev
    refine ⟨le_max_right _ _, max_le (le_of_lt h2) hse, le_min (le_of_lt h1) hse,
      min_le_right _ _⟩
  · rw [if_neg hc] at hev
    cases hev

/-- All boundary markers of a night lie inside the window. -/
theorem boundary_mem_bounds {events : List CalendarEvent} {s e : ℚ} (hse : s ≤ e)
    {p : ℚ × ℚ}
    (hp : p ∈ sortPairs (clipToWindow events s e ++ [(s, s), (e, e)])) :
    s ≤ p.1 ∧ p.1 ≤ e ∧ s ≤ p.2 ∧ p.2 ≤ e := by
  rw [mem_sortPairs, List.mem_append] at hp
  rcases hp with hp | hp
  · exact clip_mem_bounds hse hp
  · simp only [List.mem_cons, List.not_mem_nil, or_false] at hp
    rcases hp with hp | hp
    · subst hp
      exact ⟨le_refl s, hse, le_refl s, hse⟩
    · subst hp
      exact ⟨hse, le_refl e, hse, le_refl e⟩

/-- The running maximum of gaps stays between 0 and the window span. -/
theorem maxGapFrom_bounds {s e : ℚ} (hse : s ≤ e) :
    ∀ (l : List (ℚ × ℚ)) (prev : ℚ × ℚ) (acc : ℚ),
      (∀ p ∈ l, s ≤ p.1 ∧ p.1 ≤ e ∧ s ≤ p.2 ∧ p.2 ≤ e) →
      s ≤ prev.2 → 0 ≤ acc → acc ≤ (e - s) / 60 →
      0 ≤ maxGapFrom prev l acc ∧ maxGapFrom prev l acc ≤ (e - s) / 60 := by
  intro l
  induction l with
  | nil => intro prev acc _ _ h0 hub; exact ⟨h0, hub⟩
  | cons c rest ih =>
      intro prev acc hmem hprev h0 hub
      rw [maxGapFrom]
      have hc := hmem c (by simp)
      have hgap : (c.1 - prev.2) / 60 ≤ (e - s) / 60 := by
        apply div_le_div_of_nonneg_right ?_ (by norm_num)
        linarith [hc.2.1]
      by_cases hcmp : acc < (c.1 - prev.2) / 60
      · rw [if_pos hcmp]
        exact ih c _ (fun p hp => hmem p (by simp [hp])) hc.2.2.1
          (le_trans h0 (le_of_lt hcmp)) hgap
      · rw [if_neg hcmp]
        exact ih c _ (fun p hp => hmem p (by simp [hp])) hc.2.2.1 h0 hub

/-- The largest boundary gap of a night is between 0 and 10 hours. -/
theorem maxGap_night_bounds (events : List CalendarEvent) (now : ℚ) (d : ℕ) :
    0 ≤ maxGap (sortPairs (clipToWindow events (nightWindowStart now d) (nightWindowEnd now d) ++
      [(nightWindowStart now d, nightWindowStart now d),
       (nightWindowEnd now d, nightWindowEnd now d)])) ∧
    maxGap (sortPairs (clipToWindow events (nightWindowStart now d) (nightWindowEnd now d) ++
      [(nightWindowStart now d, nightWindowStart now d),
       (nightWindowEnd now d, nightWindowEnd now d)])) ≤ 10 := by
  set s := nightWindowStart now d with hs
  set e := nightWindowEnd now d with he
  have hse : s ≤ e := le_of_lt (nightWindow_lt now d)
  have hdiff : (e - s) / 60 = 10 := by
    have := nightWindow_diff now d
    rw [← hs, ← he] at this
    rw [this]
    norm_num
  cases hl : sortPairs (clipToWindow events s e ++ [(s, s), (e, e)]) with
  | nil => rw [maxGap]; norm_num
  | cons p rest =>
      rw [maxGap, ← hdiff]
      have hmem : ∀ q ∈ rest, s ≤ q.1 ∧ q.1 ≤ e ∧ s ≤ q.2 ∧ q.2 ≤ e := by
        intro q hq
        exact boundary_mem_bounds hse (by rw [hl]; simp [hq])
      have hp : s ≤ p.2 := (boundary_mem_bounds hse (by rw [hl]; simp)).2.2.1
      exact maxGapFrom_bounds hse rest p 0 hmem hp (le_refl 0) (by rw [hdiff]; norm_num)

/-- Each per-night estimate is between 0 and 10 hours, and the 12-hour cap
never binds. -/
theorem nightSleepHours_bounds (events : List CalendarEvent) (now : ℚ) (d : ℕ) :
    0 ≤ nightSleepHours events (nightWindowStart now d) (nightWindowEnd now d) ∧
    nightSleepHours events (nightWindowStart now d) (nightWindowEnd now d) ≤ 10 ∧
    nightSleepHours events (nightWindowStart now d) (nightWindowEnd now d) =
      maxGap (sortPairs (clipToWindow events (nightWindowStart now d) (nightWindowEnd now d) ++
        [(nightWindowStart now d, nightWindowStart now d),
         (nightWindowEnd now d, nightWindowEnd now d)])) := by
  obtain ⟨h0, h10⟩ := maxGap_night_bounds events now d
  unfold nightSleepHours
  refine ⟨le_min h0 (by norm_num), ?_, min_eq_left (le_trans h10 (by norm_num))⟩
  rw [min_eq_left (le_trans h10 (by norm_num))]
  exact h10

theorem round2_ten : round2 (10 : ℚ) = 10 := by
  have h := round2_intCast (α := ℚ) 10
  push_cast at h
  exact h

/-- A 10-hour window with no overlapping events yields exactly 10 free
hours. -/
theorem nightSleepHours_free_window (events : List CalendarEvent) (s e : ℚ)
    (hlt : s < e) (hdiff : (e - s) / 60 = 10)
    (h : clipToWindow events s e = []) :
    nightSleepHours events s e = 10 := by
  unfold nightSleepHours
  rw [h]
  have hsort : sortPairs ([] ++ [(s, s), (e, e)]) = [(s, s), (e, e)] := by
    show insertPair (s, s) (insertPair (e, e) []) = _
    rw [insertPair, insertPair, if_pos (show pairLe (s, s) (e, e) from Or.inl hlt)]
  rw [hsort, maxGap, maxGapFrom, maxGapFrom]
  rw [if_pos (by rw [show ((e, e).1 - (s, s).2) = e - s from rfl, hdiff]; norm_num)]
  rw [show ((e, e).1 - (s, s).2) = e - s from rfl, hdiff]
  norm_num

/-- A night with no overlapping events yields exactly 10 free hours. -/
theorem nightSleepHours_no_overlap (events : List CalendarEvent) (now : ℚ) (d : ℕ)
    (h : clipToWindow events (nightWindowStart now d) (nightWindowEnd now d) = []) :
    nightSleepHours events (nightWindowStart now d) (nightWindowEnd now d) = 10 :=
  nightSleepHours_free_window events _ _ (nightWindow_lt now d)
    (by rw [nightWindow_diff]; norm_num) h

/-- If no event overlaps any of the 7 nightly windows, the average is
exactly 10 hours. -/
theorem sleepOpportunity_all_free (events : List CalendarEvent) (now : ℚ)
    (h : ∀ d : ℕ, d < 7 →
      clipToWindow events (nightWindowStart now d) (nightWindowEnd now d) = []) :
    calculateSleepOpportunity events now = 10 := by
  unfold calculateSleepOpportunity
  have hv : (List.range 7).map
      (fun d => nightSleepHours events (nightWindowStart now d) (nightWindowEnd now d)) =
      [10, 10, 10, 10, 10, 10, 10] := by
    have e0 := nightSleepHours_no_overlap events now 0 (h 0 (by norm_num))
    have e1 := nightSleepHours_no_overlap events now 1 (h 1 (by norm_num))
    have e2 := nightSleepHours_no_overlap events now 2 (h 2 (by norm_num))
    have e3 := nightSleepHours_no_overlap events now 3 (h 3 (by norm_num))
    have e4 := nightSleepHours_no_overlap events now 4 (h 4 (by norm_num))
    have e5 := nightSleepHours_no_overlap events now 5 (h 5 (by norm_num))
    have e6 := nightSleepHours_no_overlap events now 6 (h 6 (by norm_num))
    simp [List.range_succ, e0, e1, e2, e3, e4, e5, e6]
  rw [hv]
  simp only [List.sum_cons, List.sum_nil, List.length_cons, List.length_nil]
  rw [show ((10 : ℚ) + (10 + (10 + (10 + (10 + (10 + (10 + 0)))))))
      / ((0 + 1 + 1 + 1 + 1 + 1 + 1 + 1 : ℕ) : ℚ) = 10 by norm_num]
  exact round2_ten

/-- The computed sleep average is between 0 and 10 hours. -/
theorem sleepOpportunity_bounds (events : List CalendarEvent) (now : ℚ) :
    0 ≤ calculateSleepOpportunity events now ∧
    calculateSleepOpportunity events now ≤ 10 := by
  unfold calculateSleepOpportunity
  set vals := (List.range 7).map
    (fun d => nightSleepHours events (nightWindowStart now d) (nightWindowEnd now d)) with hvals
  have hlen : vals.length = 7 := by rw [hvals]; simp
  have hmem : ∀ v ∈ vals, 0 ≤ v ∧ v ≤ 10 := by
    intro v hv
    rw [hvals, List.mem_map] at hv
    obtain ⟨d, _, hd⟩ := hv
    obtain ⟨h0, h10, _⟩ := nightSleepHours_bounds events now d
    rw [← hd]
    exact ⟨h0, h10⟩
  have hsum0 : 0 ≤ vals.sum := List.sum_nonneg (fun v hv => (hmem v hv).1)
  have hsum10 : vals.sum ≤ 70 := by
    have h := List.sum_le_card_nsmul vals 10 (fun v hv => (hmem v hv).2)
    rw [hlen] at h
    simp only [nsmul_eq_mul] at h
    norm_num at h
    linarith
  constructor
  · have : round2 (0 : ℚ) ≤ round2 (vals.sum / (vals.length : ℚ)) := by
      apply round2_mono
      rw [hlen]
      positivity
    rwa [show round2 (0 : ℚ) = 0 by rw [round2]; norm_num] at this
  · have : round2 (vals.sum / (vals.length : ℚ)) ≤ round2 (10 : ℚ) := by
      apply round2_mono
      rw [hlen]
      rw [div_le_iff₀ (by norm_num)]
      push_cast
      linarith
    rwa [round2_ten] at this

/-! ## C10: sleep opportunity invariant -/

/-- **C10.** For every event list, the sleep opportunity estimate lies in
[0, 10]: each nightly window spans 10 hours, so the largest per-night free
gap never exceeds 10 and the 12.0-hour cap never binds; with no events
overlapping any nightly window the result is exactly 10.0 and the
corresponding sleep factor is 0. -/
theorem sleep_opportunity_invariant (events : List CalendarEvent) (now : ℚ) :
    (0 ≤ calculateSleepOpportunity events now ∧
     calculateSleepOpportunity events now ≤ 10) ∧
    (∀ d : ℕ, nightSleepHours events (nightWindowStart now d) (nightWindowEnd now d) =
      maxGap (sortPairs (clipToWindow events (nightWindowStart now d) (nightWindowEnd now d) ++
        [(nightWindowStart now d, nightWindowStart now d),
         (nightWindowEnd now d, nightWindowEnd now d)]))) ∧
    ((∀ d : ℕ, d < 7 →
        clipToWindow events (nightWindowStart now d) (nightWindowEnd now d) = []) →
      calculateSleepOpportunity events now = 10 ∧
      sleepFactorQ (calculateSleepOpportunity events now) = 0) := by
  refine ⟨sleepOpportunity_bounds events now,
    fun d => (nightSleepHours_bounds events now d).2.2, fun h => ?_⟩
  have h10 := sleepOpportunity_all_free events now h
  refine ⟨h10, ?_⟩
  rw [h10]
  unfold sleepFactorQ
  norm_num

/-- Witness for C10: with no events at all, no night is interrupted, the
average is exactly 10 hours and the sleep factor is 0. -/
theorem sleep_opportunity_invariant_witness :
    calculateSleepOpportunity [] 0 = 10 ∧
    sleepFactorQ (calculateSleepOpportunity [] 0) = 0 :=
  (sleep_opportunity_invariant [] 0).2.2 (fun _ _ => rfl)

/-! ## C8: empty inputs -/

theorem round2_zero {α : Type} [LinearOrderedField α] [FloorRing α] :
    round2 (0 : α) = 0 := by
  rw [round2]
  norm_num

theorem density_nil (now : ℚ) : calculateCalendarDensity [] now = 0 := rfl

theorem avgBreak_nil (now : ℚ) : calculateAverageBreakLength [] now = 16 * 60 := rfl

theorem breakFactorQ_960 : breakFactorQ (16 * 60) = 0 := by
  rw [breakFactorQ, if_pos (by norm_num)]

theorem sleepOpportunity_nil (now : ℚ) : calculateSleepOpportunity [] now = 10 :=
  sleepOpportunity_all_free [] now (fun _ _ => rfl)

theorem taskFactor_zero : taskFactor 0 = 0 := by
  have h1 : (1 + ((0 : ℕ) : ℝ) * 2) = 1 := by norm_num
  rw [taskFactor, h1, Real.log_one, mul_zero, min_eq_left (by norm_num)]

theorem calendarFactorVal_nil (now : ℚ) : calendarFactorVal [] now = 0 := by
  show calFactorQ (calculateCalendarDensity [] now) 0 0 0 = 0
  rw [density_nil, calFactorQ]
  norm_num

theorem sleepFactorQ_ten : sleepFactorQ 10 = 0 := by
  rw [sleepFactorQ]
  norm_num

theorem totalScoreVal_nil (now : ℚ) : totalScoreVal [] [] now = 0 := by
  rw [totalScoreVal, calendarFactorVal_nil,
    show calculateImmediateTasks [] now = 0 from rfl, taskFactor_zero,
    sleepOpportunity_nil, sleepFactorQ_ten, avgBreak_nil, breakFactorQ_960]
  push_cast
  ring

/-- **C8.** Empty event and task lists are valid inputs: they produce
`calendar_factor = 0`, `task_factor = 0`, an average break equal to the
16*60-minute policy maximum giving break factor 0, the default sleep
estimate of 10 hours giving `sleep_factor = 0`, and `risk_level = "low"`. -/
theorem empty_inputs_defaults (now : ℚ) :
    (calculateStressScore [] [] now).calendar_factor = 0 ∧
    (calculateStressScore [] [] now).task_factor = 0 ∧
    calculateAverageBreakLength [] now = 16 * 60 ∧
    breakFactorQ (calculateAverageBreakLength [] now) = 0 ∧
    calculateSleepOpportunity [] now = 10 ∧
    (calculateStressScore [] [] now).sleep_factor = 0 ∧
    (calculateStressScore [] [] now).risk_level = "low" := by
  refine ⟨?_, ?_, avgBreak_nil now, ?_, sleepOpportunity_nil now, ?_, ?_⟩
  · show ((round2 (calendarFactorVal [] now) : ℚ) : ℝ) = 0
    rw [calendarFactorVal_nil, round2_zero]
    norm_num
  · show round2 (taskFactor (calculateImmediateTasks [] now)) = 0
    rw [show calculateImmediateTasks [] now = 0 from rfl, taskFactor_zero, round2_zero]
  · rw [avgBreak_nil]
    exact breakFactorQ_960
  · show ((round2 (sleepFactorQ (calculateSleepOpportunity [] now)) : ℚ) : ℝ) = 0
    rw [sleepOpportunity_nil, sleepFactorQ_ten, round2_zero]
    norm_num
  · show riskLevel (totalScoreVal [] [] now) = "low"
    rw [totalScoreVal_nil, riskLevel, if_neg (by norm_num), if_neg (by norm_num),
      if_neg (by norm_num)]

/-! ## C6: all score fields stay within [0, 100] -/

theorem round2_hundred {α : Type} [LinearOrderedField α] [FloorRing α] :
    round2 (100 : α) = 100 := by
  have h := round2_intCast (α := α) 100
  push_cast at h
  exact h

theorem round2_in_Icc {α : Type} [LinearOrderedField α] [FloorRing α] {x : α}
    (h0 : 0 ≤ x) (h1 : x ≤ 100) : 0 ≤ round2 x ∧ round2 x ≤ 100 := by
  constructor
  · have h := round2_mono h0
    rwa [round2_zero] at h
  · have h := round2_mono h1
    rwa [round2_hundred] at h

theorem density_bounds (events : List CalendarEvent) (now : ℚ)
    (h : ∀ e ∈ events, e.start ≤ e.endT) :
    0 ≤ calculateCalendarDensity events now ∧
    calculateCalendarDensity events now ≤ 100 := by
  unfold calculateCalendarDensity
  by_cases hw : (weeklyEvents events now).isEmpty
  · rw [if_pos hw]
    norm_num
  · rw [if_neg hw]
    have hsum : 0 ≤ ((weeklyEvents events now).map (fun e => e.endT - e.start)).sum := by
      apply List.sum_nonneg
      intro x hx
      rw [List.mem_map] at hx
      obtain ⟨e, he, hxe⟩ := hx
      have hmem : e ∈ events := (List.mem_filter.mp he).1
      have := h e hmem
      rw [← hxe]
      linarith
    apply round2_in_Icc
    · exact le_min (by positivity) (by norm_num)
    · exact min_le_right _ _

theorem taskFactor_bounds (n : ℕ) : 0 ≤ taskFactor n ∧ taskFactor n ≤ 100 := by
  unfold taskFactor
  constructor
  · apply le_min ?_ (by norm_num)
    have hlog : 0 ≤ Real.log (1 + (n : ℝ) * 2) := by
      apply Real.log_nonneg
      have : (0 : ℝ) ≤ (n : ℝ) := Nat.cast_nonneg n
      linarith
    positivity
  · exact min_le_right _ _

theorem sleepFactorQ_bounds {sh : ℚ} (h0 : 0 ≤ sh) :
    0 ≤ sleepFactorQ sh ∧ sleepFactorQ sh ≤ 100 := by
  unfold sleepFactorQ
  refine ⟨le_max_right _ _, max_le (by linarith) (by norm_num)⟩

theorem breakFactorQ_bounds (ab : ℚ) :
    0 ≤ breakFactorQ ab ∧ breakFactorQ ab ≤ 100 := by
  unfold breakFactorQ
  split_ifs <;> norm_num

theorem calFactorQ_bounds (density : ℚ) (cnt hs rc : ℕ) :
    0 ≤ calFactorQ density cnt hs rc ∧ calFactorQ density cnt hs rc ≤ 100 := by
  unfold calFactorQ
  exact ⟨le_max_left _ _, max_le (by norm_num) (min_le_right _ _)⟩

theorem totalScoreVal_bounds (events : List CalendarEvent) (tasks : List Task) (now : ℚ)
    (h : ∀ e ∈ events, e.start ≤ e.endT) :
    0 ≤ totalScoreVal events tasks now ∧ totalScoreVal events tasks now ≤ 100 := by
  obtain ⟨hc0, hc1⟩ := calFactorQ_bounds (calculateCalendarDensity events now)
    (eventsCount events now) (highStressCount events now) (recreationalCount events now)
  obtain ⟨ht0, ht1⟩ := taskFactor_bounds (calculateImmediateTasks tasks now)
  obtain ⟨hs0, hs1⟩ := sleepFactorQ_bounds (sleepOpportunity_bounds events now).1
  obtain ⟨hb0, hb1⟩ := breakFactorQ_bounds (calculateAverageBreakLength events now)
  unfold totalScoreVal
  have hcr0 : (0 : ℝ) ≤ (calendarFactorVal events now : ℚ) := by exact_mod_cast hc0
  have hcr1 : ((calendarFactorVal events now : ℚ) : ℝ) ≤ 100 := by exact_mod_cast hc1
  have hsr0 : (0 : ℝ) ≤ (sleepFactorQ (calculateSleepOpportunity events now) : ℚ) := by
    exact_mod_cast hs0
  have hsr1 : ((sleepFactorQ (calculateSleepOpportunity events now) : ℚ) : ℝ) ≤ 100 := by
    exact_mod_cast hs1
  have hbr0 : (0 : ℝ) ≤ (breakFactorQ (calculateAverageBreakLength events now) : ℚ) := by
    exact_mod_cast hb0
  have hbr1 : ((breakFactorQ (calculateAverageBreakLength events now) : ℚ) : ℝ) ≤ 100 := by
    exact_mod_cast hb1
  constructor <;> nlinarith [hcr0, hcr1, ht0, ht1, hsr0, hsr1, hbr0, hbr1]

/-- **C6.** If every event ends no earlier than it starts, then the computed
calendar density lies in [0, 100], the returned total score lies in
[0, 100], and each sub-factor (calendar, task, sleep, and the break step
factor) lies in [0, 100] after clamping. -/
theorem score_fields_bounded (events : List CalendarEvent) (tasks : List Task) (now : ℚ)
    (h : ∀ e ∈ events, e.start ≤ e.endT) :
    (0 ≤ calculateCalendarDensity events now ∧
     calculateCalendarDensity events now ≤ 100) ∧
    (0 ≤ (calculateStressScore events tasks now).total_score ∧
     (calculateStressScore events tasks now).total_score ≤ 100) ∧
    (0 ≤ (calculateStressScore events tasks now).calendar_factor ∧
     (calculateStressScore events tasks now).calendar_factor ≤ 100) ∧
    (0 ≤ (calculateStressScore events tasks now).task_factor ∧
     (calculateStressScore events tasks now).task_factor ≤ 100) ∧
    (0 ≤ (calculateStressScore events tasks now).sleep_factor ∧
     (calculateStressScore events tasks now).sleep_factor ≤ 100) ∧
    (0 ≤ breakFactorQ (calculateAverageBreakLength events now) ∧
     breakFactorQ (calculateAverageBreakLength events now) ≤ 100) := by
  refine ⟨density_bounds events now h, ?_, ?_, ?_, ?_,
    breakFactorQ_bounds (calculateAverageBreakLength events now)⟩
  · obtain ⟨h0, h1⟩ := totalScoreVal_bounds events tasks now h
    exact round2_in_Icc h0 h1
  · show 0 ≤ ((round2 (calendarFactorVal events now) : ℚ) : ℝ) ∧
      ((round2 (calendarFactorVal events now) : ℚ) : ℝ) ≤ 100
    obtain ⟨h0, h1⟩ := calFactorQ_bounds (calculateCalendarDensity events now)
      (eventsCount events now) (highStressCount events now) (recreationalCount events now)
    obtain ⟨g0, g1⟩ := round2_in_Icc h0 h1
    constructor
    · exact_mod_cast g0
    · exact_mod_cast g1
  · obtain ⟨h0, h1⟩ := taskFactor_bounds (calculateImmediateTasks tasks now)
    exact round2_in_Icc h0 h1
  · show 0 ≤ ((round2 (sleepFactorQ (calculateSleepOpportunity events now)) : ℚ) : ℝ) ∧
      ((round2 (sleepFactorQ (calculateSleepOpportunity events now)) : ℚ) : ℝ) ≤ 100
    obtain ⟨h0, h1⟩ := sleepFactorQ_bounds (sleepOpportunity_bounds events now).1
    obtain ⟨g0, g1⟩ := round2_in_Icc h0 h1
    constructor
    · exact_mod_cast g0
    · exact_mod_cast g1

/-- Witness for C6 at a concrete one-event input. -/
theorem score_fields_bounded_witness :
    0 ≤ (calculateStressScore [⟨"a", "Standup meeting", 600, 660, none⟩] [] 0).total_score ∧
    (calculateStressScore [⟨"a", "Standup meeting", 600, 660, none⟩] [] 0).total_score ≤ 100 :=
  (score_fields_bounded [⟨"a", "Standup meeting", 600, 660, none⟩] [] 0
    (by intro e he; simp at he; subst he; norm_num)).2.1

/-! ## C2: risk tiers -/

/-- **C2.** The risk level is the pure threshold function of the computed
total score, inclusive at the lower bound of each tier: >= 80 critical,
[60, 80) high, [40, 60) medium, below 40 low; in particular a total of
exactly 80.00 is critical and 79.99 is high. -/
theorem risk_level_thresholds :
    (∀ (events : List CalendarEvent) (tasks : List Task) (now : ℚ),
      (calculateStressScore events tasks now).risk_level =
        riskLevel (totalScoreVal events tasks now)) ∧
    (∀ s : ℝ,
      (80 ≤ s → riskLevel s = "critical") ∧
      (60 ≤ s → s < 80 → riskLevel s = "high") ∧
      (40 ≤ s → s < 60 → riskLevel s = "medium") ∧
      (s < 40 → riskLevel s = "low")) ∧
    riskLevel 80 = "critical" ∧ riskLevel 79.99 = "high" := by
  refine ⟨fun _ _ _ => rfl, fun s => ⟨fun h => ?_, fun h1 h2 => ?_,
    fun h1 h2 => ?_, fun h => ?_⟩, ?_, ?_⟩
  · rw [riskLevel, if_pos h]
  · rw [riskLevel, if_neg (by linarith), if_pos h1]
  · rw [riskLevel, if_neg (by linarith), if_neg (by linarith), if_pos h1]
  · rw [riskLevel, if_neg (by linarith), if_neg (by linarith), if_neg (by linarith)]
  · rw [riskLevel, if_pos (by norm_num)]
  · rw [riskLevel, if_neg (by norm_num), if_pos (by norm_num)]

/-- Witness for C2: the tier implications applied at concrete scores. -/
theorem risk_level_thresholds_witness :
    riskLevel 85 = "critical" ∧ riskLevel 63 = "high" ∧
    riskLevel 45 = "medium" ∧ riskLevel 12 = "low" :=
  ⟨(risk_level_thresholds.2.1 85).1 (by norm_num),
   (risk_level_thresholds.2.1 63).2.1 (by norm_num) (by norm_num),
   (risk_level_thresholds.2.1 45).2.2.1 (by norm_num) (by norm_num),
   (risk_level_thresholds.2.1 12).2.2.2 (by norm_num)⟩

/-! ## Numeric bounds on the logarithms used by the task factor -/

theorem exp_nat_lt (n : ℕ) (hn : n ≠ 0) :
    Real.exp n < (2.7182818286 : ℝ) ^ n := by
  rw [← Real.exp_one_pow]
  exact pow_lt_pow_left Real.exp_one_lt_d9 (le_of_lt (Real.exp_pos 1)) hn

theorem lt_exp_nat (n : ℕ) (hn : n ≠ 0) :
    (2.7182818283 : ℝ) ^ n < Real.exp n := by
  rw [← Real.exp_one_pow]
  exact pow_lt_pow_left Real.exp_one_gt_d9 (by norm_num) hn

theorem log_lt_div_of_pow_lt_exp {x : ℝ} (hx : 0 < x) (m n : ℕ) (hn : 0 < n)
    (h : x ^ n < Real.exp m) : Real.log x < (m : ℝ) / n := by
  have hl := Real.log_lt_log (pow_pos hx n) h
  rw [Real.log_pow, Real.log_exp] at hl
  rw [lt_div_iff₀ (by exact_mod_cast hn)]
  have hc := mul_comm ((n : ℝ)) (Real.log x)
  linarith

theorem div_lt_log_of_exp_lt_pow {x : ℝ} (hx : 0 < x) (m n : ℕ) (hn : 0 < n)
    (h : Real.exp m < x ^ n) : (m : ℝ) / n < Real.log x := by
  have hl := Real.log_lt_log (Real.exp_pos m) h
  rw [Real.log_pow, Real.log_exp] at hl
  rw [div_lt_iff₀ (by exact_mod_cast hn)]
  have hc := mul_comm ((n : ℝ)) (Real.log x)
  linarith

theorem log_three_gt : 1 < Real.log 3 := by
  have h := div_lt_log_of_exp_lt_pow (x := 3) (by norm_num) 1 1 (by norm_num)
    (by rw [pow_one, Nat.cast_one]; exact lt_trans Real.exp_one_lt_d9 (by norm_num))
  rw [Nat.cast_one, div_one] at h
  exact h

theorem log_three_lt : Real.log 3 < 7 / 6 := by
  have h := log_lt_div_of_pow_lt_exp (x := 3) (by norm_num) 7 6 (by norm_num)
    (lt_trans (by norm_num) (lt_exp_nat 7 (by norm_num)))
  simpa using h

theorem log_seven_gt : 11 / 6 < Real.log 7 := by
  have h := div_lt_log_of_exp_lt_pow (x := 7) (by norm_num) 11 6 (by norm_num)
    (lt_trans (exp_nat_lt 11 (by norm_num)) (by norm_num))
  simpa using h

theorem log_seven_lt : Real.log 7 < 2 := by
  have h := log_lt_div_of_pow_lt_exp (x := 7) (by norm_num) 2 1 (by norm_num)
    (by rw [pow_one]; exact lt_trans (by norm_num) (lt_exp_nat 2 (by norm_num)))
  simpa using h

theorem log_eleven_gt : 23 / 10 < Real.log 11 := by
  have h := div_lt_log_of_exp_lt_pow (x := 11) (by norm_num) 23 10 (by norm_num)
    (lt_trans (exp_nat_lt 23 (by norm_num)) (by norm_num))
  simpa using h

theorem log_eleven_lt : Real.log 11 < 5 / 2 := by
  have h := log_lt_div_of_pow_lt_exp (x := 11) (by norm_num) 5 2 (by norm_num)
    (lt_trans (by norm_num) (lt_exp_nat 5 (by norm_num)))
  simpa using h

theorem log_twentyone_gt : 3 < Real.log 21 := by
  have h := div_lt_log_of_exp_lt_pow (x := 21) (by norm_num) 3 1 (by norm_num)
    (by rw [pow_one]; exact lt_trans (exp_nat_lt 3 (by norm_num)) (by norm_num))
  simpa using h

theorem log_twentyone_lt : Real.log 21 < 13 / 4 := by
  have h := log_lt_div_of_pow_lt_exp (x := 21) (by norm_num) 13 4 (by norm_num)
    (lt_trans (by norm_num) (lt_exp_nat 13 (by norm_num)))
  simpa using h

/-! ## C4: the task-factor curve -/

theorem taskFactor_one_eq : taskFactor 1 = 30 * Real.log 3 := by
  rw [taskFactor, show (1 + ((1 : ℕ) : ℝ) * 2) = 3 by norm_num]
  exact min_eq_left (by nlinarith [log_three_lt])

theorem taskFactor_three_eq : taskFactor 3 = 30 * Real.log 7 := by
  rw [taskFactor, show (1 + ((3 : ℕ) : ℝ) * 2) = 7 by norm_num]
  exact min_eq_left (by nlinarith [log_seven_lt])

theorem taskFactor_five_eq : taskFactor 5 = 30 * Real.log 11 := by
  rw [taskFactor, show (1 + ((5 : ℕ) : ℝ) * 2) = 11 by norm_num]
  exact min_eq_left (by nlinarith [log_eleven_lt])

theorem taskFactor_ten_eq : taskFactor 10 = 30 * Real.log 21 := by
  rw [taskFactor, show (1 + ((10 : ℕ) : ℝ) * 2) = 21 by norm_num]
  exact min_eq_left (by nlinarith [log_twentyone_lt])

/-- **C4 counterexample.** One immediate task gives a task factor above 30,
not approximately 21: `30 * ln 3 = 32.96...`, which differs from 21 by more
than 9. -/
theorem task_factor_one_not_21 : (21 : ℝ) + 9 < taskFactor 1 := by
  rw [taskFactor_one_eq]
  nlinarith [log_three_gt]

/-- **C4 (amended).** For every count n of immediate tasks the task factor
is `min(30 * ln(1 + n*2), 100)`, and the curve gives 0 tasks → 0,
1 task → 30 ln 3 ∈ (30, 35) (≈ 33), 3 tasks → 30 ln 7 ∈ (55, 60) (≈ 58),
5 tasks → 30 ln 11 ∈ (69, 75) (≈ 72), 10 tasks → 30 ln 21 ∈ (90, 98)
(≈ 91). -/
theorem task_factor_curve :
    (∀ n : ℕ, taskFactor n = min (30 * Real.log (1 + (n : ℝ) * 2)) 100) ∧
    taskFactor 0 = 0 ∧
    (30 < taskFactor 1 ∧ taskFactor 1 < 35) ∧
    (55 < taskFactor 3 ∧ taskFactor 3 < 60) ∧
    (69 < taskFactor 5 ∧ taskFactor 5 < 75) ∧
    (90 < taskFactor 10 ∧ taskFactor 10 < 98) := by
  refine ⟨fun n => rfl, taskFactor_zero, ?_, ?_, ?_, ?_⟩
  · rw [taskFactor_one_eq]
    constructor
    · nlinarith [log_three_gt]
    · nlinarith [log_three_lt]
  · rw [taskFactor_three_eq]
    constructor
    · nlinarith [log_seven_gt]
    · nlinarith [log_seven_lt]
  · rw [taskFactor_five_eq]
    constructor
    · nlinarith [log_eleven_gt]
    · nlinarith [log_eleven_lt]
  · rw [taskFactor_ten_eq]
    constructor
    · nlinarith [log_twentyone_gt]
    · nlinarith [log_twentyone_lt]

/-! ## C5: task interventions naming concrete tasks

The break-down rule fires only when `high_priority_tasks > 3`; with exactly
2 high-priority tasks no break-down intervention is produced. -/

/-- With only the two task rules triggered, the candidate list is exactly
the delegate and break-down candidates. -/
theorem candidates_of_task_rules (ss : StressScore ℚ) (factors : StressFactors)
    (tasks : List Task) (events : List CalendarEvent) (now : ℚ)
    (t0 h0 : Task) (rest1 rest2 : List Task)
    (htf : 60 < ss.task_factor)
    (hov : 0 < factors.overdue_tasks)
    (hhp : 3 < factors.high_priority_tasks)
    (hol : overdueList tasks now = t0 :: rest1)
    (hhl : highPriorityList tasks = h0 :: rest2)
    (hcal : ss.calendar_factor ≤ 60)
    (hsl : ss.sleep_factor ≤ 60)
    (htot : ss.total_score ≤ 50) :
    interventionCandidates ss factors tasks events now =
      [delegateCandidate t0 factors, breakDownCandidate h0 factors] := by
  unfold interventionCandidates
  rw [if_pos ⟨htf, hov⟩, if_pos ⟨htf, hhp⟩, hol, hhl]
  rw [if_neg (by rintro ⟨hc, -⟩; exact absurd hc (not_lt.mpr hcal))]
  rw [if_neg (not_lt.mpr hcal)]
  rw [if_neg (not_lt.mpr hsl)]
  rw [if_neg (not_lt.mpr (le_trans htot (by norm_num)))]
  rw [if_neg (by rintro ⟨-, hc⟩; exact absurd hc (not_lt.mpr (le_trans htot (by norm_num))))]
  rw [if_neg (by rintro ⟨-, hc⟩; exact absurd hc (not_lt.mpr htot))]
  simp [List.head?]

/-- **C5 (amended).** If the task factor exceeds 60 with exactly 1 overdue
task and exactly 4 incomplete high-priority tasks (the break-down rule
requires more than 3), and no other rule fires (calendar and sleep factors
at most 60, total at most 50), the returned list contains a delegate
intervention naming the earliest overdue task and a break-down intervention
naming the first high-priority task. -/
theorem delegate_and_break_down_interventions
    (ss : StressScore ℚ) (factors : StressFactors) (tasks : List Task)
    (events : List CalendarEvent) (now : ℚ) (ids : ℕ → String)
    (t0 h0 : Task) (rest1 rest2 : List Task)
    (htf : 60 < ss.task_factor)
    (hov : factors.overdue_tasks = 1)
    (hhp : factors.high_priority_tasks = 4)
    (hol : overdueList tasks now = t0 :: rest1)
    (hhl : highPriorityList tasks = h0 :: rest2)
    (hcal : ss.calendar_factor ≤ 60)
    (hsl : ss.sleep_factor ≤ 60)
    (htot : ss.total_score ≤ 50) :
    (∃ i ∈ generateInterventions ss factors tasks events now ids,
       i.type = "delegate" ∧ i.title = "Complete overdue: " ++ t0.title.take 30) ∧
    (∃ i ∈ generateInterventions ss factors tasks events now ids,
       i.type = "break_down" ∧ i.title = "Break down: " ++ h0.title.take 30) := by
  have hcands := candidates_of_task_rules ss factors tasks events now t0 h0 rest1 rest2
    htf (by omega) (by omega) hol hhl hcal hsl htot
  have hres : generateInterventions ss factors tasks events now ids =
      [breakDownCandidate h0 factors (ids 1), delegateCandidate t0 factors (ids 0)] := by
    rw [generateInterventions, hcands]
    have hattach : attachIds ids [delegateCandidate t0 factors, breakDownCandidate h0 factors] =
        [delegateCandidate t0 factors (ids 0), breakDownCandidate h0 factors (ids 1)] := by
      rfl
    rw [hattach]
    show (insertIntv (delegateCandidate t0 factors (ids 0))
      (insertIntv (breakDownCandidate h0 factors (ids 1)) [])).take 5 = _
    rw [insertIntv]
    rw [insertIntv, if_neg (by
      show ¬(ratio (breakDownCandidate h0 factors (ids 1)) ≤
        ratio (delegateCandidate t0 factors (ids 0)))
      unfold ratio delegateCandidate breakDownCandidate
      norm_num)]
    rfl
  rw [hres]
  constructor
  · exact ⟨delegateCandidate t0 factors (ids 0), by simp, rfl, rfl⟩
  · exact ⟨breakDownCandidate h0 factors (ids 1), by simp, rfl, rfl⟩

/-- Witness for the amended C5: one overdue task, four high-priority tasks,
task factor 70, all other triggers off. -/
theorem delegate_and_break_down_interventions_witness :
    (∃ i ∈ generateInterventions (⟨40, 50, 70, 20, "medium", 0⟩ : StressScore ℚ)
        ⟨0, 1, 4, 0, 8⟩
        [⟨"o1", "Overdue essay", none, some (-10), "medium", false⟩,
         ⟨"h1", "Thesis chapter", none, none, "high", false⟩,
         ⟨"h2", "Grant application", none, none, "high", false⟩,
         ⟨"h3", "Data analysis", none, none, "high", false⟩,
         ⟨"h4", "Peer feedback", none, none, "high", false⟩]
        [] 0 (fun n => toString n),
      i.type = "delegate" ∧ i.title = "Complete overdue: " ++ String.take "Overdue essay" 30) ∧
    (∃ i ∈ generateInterventions (⟨40, 50, 70, 20, "medium", 0⟩ : StressScore ℚ)
        ⟨0, 1, 4, 0, 8⟩
        [⟨"o1", "Overdue essay", none, some (-10), "medium", false⟩,
         ⟨"h1", "Thesis chapter", none, none, "high", false⟩,
         ⟨"h2", "Grant application", none, none, "high", false⟩,
         ⟨"h3", "Data analysis", none, none, "high", false⟩,
         ⟨"h4", "Peer feedback", none, none, "high", false⟩]
        [] 0 (fun n => toString n),
      i.type = "break_down" ∧ i.title = "Break down: " ++ String.take "Thesis chapter" 30) :=
  delegate_and_break_down_interventions _ _ _ _ _ _
    ⟨"o1", "Overdue essay", none, some (-10), "medium", false⟩
    ⟨"h1", "Thesis chapter", none, none, "high", false⟩
    [] [⟨"h2", "Grant application", none, none, "high", false⟩,
        ⟨"h3", "Data analysis", none, none, "high", false⟩,
        ⟨"h4", "Peer feedback", none, none, "high", false⟩]
    (by norm_num) rfl rfl (by decide) (by decide)
    (by norm_num) (by norm_num) (by norm_num)

/-- **C5 counterexample.** With exactly 1 overdue task and exactly 2
incomplete high-priority tasks and a task factor of 70 > 60, the returned
list contains a delegate intervention but no break-down intervention: the
break-down rule requires more than 3 high-priority tasks. -/
theorem two_high_priority_no_break_down :
    (60 : ℚ) < (⟨0, 0, 70, 0, "low", 0⟩ : StressScore ℚ).task_factor ∧
    (⟨0, 1, 2, 0, 10⟩ : StressFactors).overdue_tasks = 1 ∧
    (⟨0, 1, 2, 0, 10⟩ : StressFactors).high_priority_tasks = 2 ∧
    (∃ i ∈ generateInterventions (⟨0, 0, 70, 0, "low", 0⟩ : StressScore ℚ)
        ⟨0, 1, 2, 0, 10⟩
        [⟨"t1", "Overdue essay", none, some (-10), "medium", false⟩,
         ⟨"t2", "Project plan", none, none, "high", false⟩,
         ⟨"t3", "Research writeup", none, none, "high", false⟩]
        [] 0 (fun n => toString n),
      i.type = "delegate") ∧
    (∀ i ∈ generateInterventions (⟨0, 0, 70, 0, "low", 0⟩ : StressScore ℚ)
        ⟨0, 1, 2, 0, 10⟩
        [⟨"t1", "Overdue essay", none, some (-10), "medium", false⟩,
         ⟨"t2", "Project plan", none, none, "high", false⟩,
         ⟨"t3", "Research writeup", none, none, "high", false⟩]
        [] 0 (fun n => toString n),
      i.type ≠ "break_down") := by
  have hcands : interventionCandidates (⟨0, 0, 70, 0, "low", 0⟩ : StressScore ℚ)
      ⟨0, 1, 2, 0, 10⟩
      [⟨"t1", "Overdue essay", none, some (-10), "medium", false⟩,
       ⟨"t2", "Project plan", none, none, "high", false⟩,
       ⟨"t3", "Research writeup", none, none, "high", false⟩]
      [] 0 =
      [delegateCandidate ⟨"t1", "Overdue essay", none, some (-10), "medium", false⟩
        ⟨0, 1, 2, 0, 10⟩] := by
    unfold interventionCandidates
    rw [if_pos ⟨by norm_num, by norm_num⟩]
    rw [if_neg (by rintro ⟨-, hc⟩; norm_num at hc)]
    rw [if_neg (by rintro ⟨hc, -⟩; norm_num at hc)]
    rw [if_neg (by norm_num)]
    rw [if_neg (by norm_num)]
    rw [if_neg (by norm_num)]
    rw [if_neg (by rintro ⟨-, hc⟩; norm_num at hc)]
    rw [if_neg (by rintro ⟨-, hc⟩; norm_num at hc)]
    rw [show overdueList
      [⟨"t1", "Overdue essay", none, some (-10), "medium", false⟩,
       ⟨"t2", "Project plan", none, none, "high", false⟩,
       ⟨"t3", "Research writeup", none, none, "high", false⟩] 0 =
      [⟨"t1", "Overdue essay", none, some (-10), "medium", false⟩] from by decide]
    simp [List.head?]
  refine ⟨by norm_num, rfl, rfl, ?_, ?_⟩
  · refine ⟨delegateCandidate ⟨"t1", "Overdue essay", none, some (-10), "medium", false⟩
      ⟨0, 1, 2, 0, 10⟩ (toString 0), ?_, rfl⟩
    rw [generateInterventions, hcands]
    exact List.mem_singleton_self _
  · intro i hi
    rw [generateInterventions, hcands] at hi
    have hi2 : i ∈ [delegateCandidate ⟨"t1", "Overdue essay", none, some (-10), "medium", false⟩
        ⟨0, 1, 2, 0, 10⟩ (toString 0)] := hi
    rw [List.mem_singleton] at hi2
    rw [hi2]
    decide

/-! ## C1: determinism of the pipeline modulo UUID draws -/

/-- Erase the (UUID-supplied) identifier of an intervention. -/
def stripId (i : Intervention) : Intervention := { i with id := "" }

theorem ratio_stripId (i : Intervention) : ratio (stripId i) = ratio i := rfl

/-- Every candidate rule fills all fields except the identifier
independently of the UUID it is handed. -/
theorem candidates_id_irrelevant {α : Type} [LinearOrderedField α]
    (ss : StressScore α) (factors : StressFactors)
    (tasks : List Task) (events : List CalendarEvent) (now : ℚ) :
    ∀ f ∈ interventionCandidates ss factors tasks events now,
      ∀ a b : String, stripId (f a) = stripId (f b) := by
  intro f hf a b
  unfold interventionCandidates at hf
  simp only [List.mem_append] at hf
  rcases hf with ((((((hf | hf) | hf) | hf) | hf) | hf) | hf) | hf
  · revert hf
    rcases (overdueList tasks now).head? with _ | t
    · intro hf
      split_ifs at hf <;> simp at hf
    · intro hf
      split_ifs at hf
      · rw [List.mem_singleton] at hf
        subst hf
        rfl
      · simp at hf
  · revert hf
    rcases (highPriorityList tasks).head? with _ | t
    · intro hf
      split_ifs at hf <;> simp at hf
    · intro hf
      split_ifs at hf
      · rw [List.mem_singleton] at hf
        subst hf
        rfl
      · simp at hf
  · split_ifs at hf
    · rw [List.mem_singleton] at hf
      subst hf
      rfl
    · exact absurd hf (List.not_mem_nil f)
  · split_ifs at hf
    · rw [List.mem_singleton] at hf
      subst hf
      rfl
    · exact absurd hf (List.not_mem_nil f)
  · split_ifs at hf
    · rw [List.mem_singleton] at hf
      subst hf
      rfl
    · exact absurd hf (List.not_mem_nil f)
  · split_ifs at hf
    · rw [List.mem_singleton] at hf
      subst hf
      rfl
    · exact absurd hf (List.not_mem_nil f)
  · revert hf
    rcases (reschedulableList events now).head? with _ | e
    · intro hf
      split_ifs at hf <;> simp at hf
    · intro hf
      split_ifs at hf
      · rw [List.mem_singleton] at hf
        subst hf
        rfl
      · simp at hf
  · split_ifs at hf
    · rw [List.mem_singleton] at hf
      subst hf
      rfl
    · exact absurd hf (List.not_mem_nil f)

theorem insertIntv_strip_congr :
    ∀ (l m : List Intervention) (x y : Intervention),
      stripId x = stripId y → l.map stripId = m.map stripId →
      (insertIntv x l).map stripId = (insertIntv y m).map stripId := by
  intro l
  induction l with
  | nil =>
      intro m x y hxy h
      cases m with
      | nil => simp [insertIntv, hxy]
      | cons b bs => simp at h
  | cons a as ih =>
      intro m x y hxy h
      cases m with
      | nil => simp at h
      | cons b bs =>
          simp only [List.map_cons, List.cons.injEq] at h
          obtain ⟨h1, h2⟩ := h
          have hra : ratio a = ratio b := by
            rw [← ratio_stripId a, h1, ratio_stripId]
          have hrx : ratio x = ratio y := by
            rw [← ratio_stripId x, hxy, ratio_stripId]
          by_cases hc : ratio a ≤ ratio x
          · rw [insertIntv, if_pos hc, insertIntv, if_pos (by rw [← hra, ← hrx]; exact hc)]
            simp only [List.map_cons, hxy, h1, h2]
          · rw [insertIntv, if_neg hc, insertIntv, if_neg (by rw [← hra, ← hrx]; exact hc)]
            simp only [List.map_cons, h1, List.cons.injEq]
            exact ⟨trivial, ih bs x y hxy h2⟩

theorem sortIntv_strip_congr :
    ∀ (l m : List Intervention), l.map stripId = m.map stripId →
      (sortIntv l).map stripId = (sortIntv m).map stripId := by
  intro l
  induction l with
  | nil =>
      intro m h
      cases m with
      | nil => rfl
      | cons b bs => simp at h
  | cons a as ih =>
      intro m h
      cases m with
      | nil => simp at h
      | cons b bs =>
          simp only [List.map_cons, List.cons.injEq] at h
          obtain ⟨h1, h2⟩ := h
          show (insertIntv a (sortIntv as)).map stripId =
            (insertIntv b (sortIntv bs)).map stripId
          exact insertIntv_strip_congr _ _ a b h1 (ih bs h2)

theorem zipWith_ids_strip (ids1 ids2 : ℕ → String) :
    ∀ (ks : List ℕ) (l : List (String → Intervention)),
      (∀ f ∈ l, ∀ a b : String, stripId (f a) = stripId (f b)) →
      (List.zipWith (fun k f => f (ids1 k)) ks l).map stripId =
        (List.zipWith (fun k f => f (ids2 k)) ks l).map stripId := by
  intro ks
  induction ks with
  | nil => intro l _; rfl
  | cons k ks ih =>
      intro l hl
      cases l with
      | nil => rfl
      | cons f fs =>
          simp only [List.zipWith, List.map_cons, List.cons.injEq]
          exact ⟨hl f (by simp) (ids1 k) (ids2 k),
            ih fs (fun g hg => hl g (by simp [hg]))⟩

/-- **C1 (amended).** With the reference instant and the UUID stream made
explicit, the pipeline is a pure function: the stress score and the stress
factors depend only on the events, tasks and instant (not on the UUID
stream at all), and the intervention list depends on the UUID stream only
through the identifiers it assigns — two invocations with different UUID
draws agree on the whole list after erasing identifiers. -/
theorem pipeline_deterministic_modulo_ids (events : List CalendarEvent)
    (tasks : List Task) (now : ℚ) (ids1 ids2 : ℕ → String) :
    (pipeline events tasks now ids1).1 = (pipeline events tasks now ids2).1 ∧
    (pipeline events tasks now ids1).2.1 = (pipeline events tasks now ids2).2.1 ∧
    ((pipeline events tasks now ids1).2.2).map stripId =
      ((pipeline events tasks now ids2).2.2).map stripId := by
  refine ⟨rfl, rfl, ?_⟩
  show ((generateInterventions (calculateStressScore events tasks now)
      (getStressFactors events tasks now) tasks events now ids1).map stripId) =
    ((generateInterventions (calculateStressScore events tasks now)
      (getStressFactors events tasks now) tasks events now ids2).map stripId)
  rw [generateInterventions, generateInterventions, List.map_take, List.map_take]
  congr 1
  apply sortIntv_strip_congr
  rw [attachIds, attachIds]
  exact zipWith_ids_strip ids1 ids2 _ _
    (candidates_id_irrelevant (calculateStressScore events tasks now)
      (getStressFactors events tasks now) tasks events now)

/-! ### A concrete run whose intervention identifiers depend on the UUID
draws: four overdue tasks and no events. -/

/-- Four incomplete tasks, all overdue at instant 0. -/
def fourOverdueTasks : List Task :=
  [⟨"k1", "Essay draft", none, some (-100), "medium", false⟩,
   ⟨"k2", "Problem set", none, some (-100), "medium", false⟩,
   ⟨"k3", "Reading notes", none, some (-100), "medium", false⟩,
   ⟨"k4", "Slide deck", none, some (-100), "medium", false⟩]

theorem endOfTomorrow_zero_nonneg : (-100 : ℚ) ≤ endOfTomorrow 0 := by
  unfold endOfTomorrow replaceTime truncDay
  have h : ⌊(0 + 1440 : ℚ) / 1440⌋ = 1 := by norm_num
  rw [h]
  norm_num

theorem fourOverdue_immediate : calculateImmediateTasks fourOverdueTasks 0 = 4 := by
  unfold calculateImmediateTasks
  rw [List.filter_eq_self.mpr]
  · rfl
  · intro t ht
    fin_cases ht <;> simp [endOfTomorrow_zero_nonneg]

theorem fourOverdue_factors :
    getStressFactors [] fourOverdueTasks 0 = ⟨0, 4, 0, 0, 8⟩ := rfl

theorem log_nine_eq : Real.log 9 = 2 * Real.log 3 := by
  rw [show (9 : ℝ) = 3 ^ 2 by norm_num, Real.log_pow]
  push_cast
  ring

theorem log_three_gt_d : 13 / 12 < Real.log 3 := by
  have h := div_lt_log_of_exp_lt_pow (x := 3) (by norm_num) 13 12 (by norm_num)
    (lt_trans (exp_nat_lt 13 (by norm_num)) (by norm_num))
  simpa using h

theorem taskFactor_four_eq : taskFactor 4 = 30 * Real.log 9 := by
  rw [taskFactor, show (1 + ((4 : ℕ) : ℝ) * 2) = 9 by norm_num]
  exact min_eq_left (by rw [log_nine_eq]; nlinarith [log_three_lt])

theorem taskFactor_four_bounds : 65 < taskFactor 4 ∧ taskFactor 4 < 70 := by
  rw [taskFactor_four_eq, log_nine_eq]
  constructor
  · nlinarith [log_three_gt_d]
  · nlinarith [log_three_lt]

/-- Rounding to 2 decimals moves a value by less than 1/100. -/
theorem round2_margin {α : Type} [LinearOrderedField α] [FloorRing α] (x : α) :
    x - 1 / 100 < round2 x ∧ round2 x < x + 1 / 100 := by
  have h1 : ((round (x * 100) : ℤ) : α) ≤ x * 100 + 1 / 2 := by
    rw [round_eq]
    exact Int.floor_le _
  have h2 : x * 100 - 1 / 2 < ((round (x * 100) : ℤ) : α) := by
    rw [round_eq]
    have h := Int.sub_one_lt_floor (x * 100 + 1 / 2)
    linarith
  constructor <;> rw [round2] <;> linarith

theorem fourOverdue_taskFactor_gt :
    (60 : ℝ) < (calculateStressScore [] fourOverdueTasks 0).task_factor := by
  show (60 : ℝ) < round2 (taskFactor (calculateImmediateTasks fourOverdueTasks 0))
  rw [fourOverdue_immediate]
  have hm := round2_margin (taskFactor 4)
  have hb := taskFactor_four_bounds
  linarith [hm.1, hb.1]

theorem fourOverdue_calendar_zero :
    (calculateStressScore [] fourOverdueTasks 0).calendar_factor = 0 := by
  show ((round2 (calendarFactorVal [] 0) : ℚ) : ℝ) = 0
  rw [calendarFactorVal_nil, round2_zero]
  norm_num

theorem fourOverdue_sleep_zero :
    (calculateStressScore [] fourOverdueTasks 0).sleep_factor = 0 := by
  show ((round2 (sleepFactorQ (calculateSleepOpportunity [] 0)) : ℚ) : ℝ) = 0
  rw [sleepOpportunity_nil, sleepFactorQ_ten, round2_zero]
  norm_num

theorem fourOverdue_total_eq :
    totalScoreVal [] fourOverdueTasks 0 = taskFactor 4 * 0.20 := by
  rw [totalScoreVal, calendarFactorVal_nil, fourOverdue_immediate, sleepOpportunity_nil,
    sleepFactorQ_ten, avgBreak_nil, breakFactorQ_960]
  push_cast
  ring

theorem fourOverdue_total_lt :
    (calculateStressScore [] fourOverdueTasks 0).total_score < 50 := by
  show round2 (totalScoreVal [] fourOverdueTasks 0) < 50
  rw [fourOverdue_total_eq]
  have hm := round2_margin (taskFactor 4 * 0.20)
  have hb := taskFactor_four_bounds
  linarith [hm.2, hb.2]

theorem fourOverdue_candidates :
    interventionCandidates (calculateStressScore [] fourOverdueTasks 0)
      ⟨0, 4, 0, 0, 8⟩ fourOverdueTasks [] 0 =
      [delegateCandidate ⟨"k1", "Essay draft", none, some (-100), "medium", false⟩
        ⟨0, 4, 0, 0, 8⟩] := by
  unfold interventionCandidates
  rw [if_pos ⟨fourOverdue_taskFactor_gt, by norm_num⟩]
  rw [if_neg (by rintro ⟨-, hc⟩; norm_num at hc)]
  rw [if_neg (by
    rintro ⟨hc, -⟩
    rw [fourOverdue_calendar_zero] at hc
    norm_num at hc)]
  rw [if_neg (by
    intro hc
    rw [fourOverdue_calendar_zero] at hc
    norm_num at hc)]
  rw [if_neg (by
    intro hc
    rw [fourOverdue_sleep_zero] at hc
    norm_num at hc)]
  rw [if_neg (by intro hc; linarith [fourOverdue_total_lt])]
  rw [if_neg (by rintro ⟨-, hc⟩; linarith [fourOverdue_total_lt])]
  rw [if_neg (by rintro ⟨-, hc⟩; linarith [fourOverdue_total_lt])]
  rw [show (overdueList fourOverdueTasks 0).head? =
    some ⟨"k1", "Essay draft", none, some (-100), "medium", false⟩ from rfl]
  simp

theorem fourOverdue_pipeline_interventions (ids : ℕ → String) :
    (pipeline [] fourOverdueTasks 0 ids).2.2 =
      [delegateCandidate ⟨"k1", "Essay draft", none, some (-100), "medium", false⟩
        ⟨0, 4, 0, 0, 8⟩ (ids 0)] := by
  show generateInterventions (calculateStressScore [] fourOverdueTasks 0)
    (getStressFactors [] fourOverdueTasks 0) fourOverdueTasks [] 0 ids = _
  rw [fourOverdue_factors, generateInterventions, fourOverdue_candidates]
  rfl

/-- **C1 counterexample.** Two invocations of the pipeline on the same
inputs and the same reference instant, differing only in the UUIDs that
`uuid.uuid4()` happens to return, produce different Intervention records:
the intervention identifiers differ. -/
theorem pipeline_uuid_nondeterminism :
    pipeline [] fourOverdueTasks 0 (fun _ => "a") ≠
      pipeline [] fourOverdueTasks 0 (fun _ => "b") := by
  intro h
  have h3 : (pipeline [] fourOverdueTasks 0 (fun _ => "a")).2.2 =
      (pipeline [] fourOverdueTasks 0 (fun _ => "b")).2.2 := by rw [h]
  rw [fourOverdue_pipeline_interventions, fourOverdue_pipeline_interventions] at h3
  simp [delegateCandidate] at h3

end BurnoutCore
